import Mathlib

/-!
Verification of the Spartan Framework service wrappers (Secret Manager /
Parameter Manager) against their natural-language specification.

The development shallowly embeds the relevant parts of the Python source:

* `app/services/secret_manager.py`:
  - the GCP-exception-to-domain-exception mapper
    (`_map_gcp_exception`, `_get_mapped_exception`, `_get_safe_context`,
    `_handle_not_found`, `_handle_failed_precondition`),
  - the project-ID resolver (`_determine_project_id` and its `_try_*` probes),
  - the credential resolver (`_setup_credentials` and its `_try_*` probes),
  - the TTL cache (`_get_cache_key`, `_get_from_cache`, `_put_in_cache`,
    `_invalidate_cache`) and the cache slice of `disable_secret_version`.
* `app/requests/parameter_manager.py`:
  - `ParameterVersionCreateRequest` construction under pydantic-v2 field
    validation (declaration order, `info.data` of previously validated fields).

Python dicts are embedded as insertion-ordered association lists with
first-match lookup and in-place update; machine-level effects (logging, RPC
calls) are embedded as explicit data in the result of the embedded function.
-/

/-! ## Python dictionaries as insertion-ordered association lists -/

/-- A Python `dict` with string keys and string values, as an
insertion-ordered association list (keys unique in actual use). -/
abbrev PyDict := List (String × String)

/-- `d.get(k)`: first binding of `k`, if any. -/
def dictGet (d : PyDict) (k : String) : Option String :=
  match d with
  | [] => none
  | (k', v) :: rest => if k' = k then some v else dictGet rest k

/-- `d.get(k, dflt)`. -/
def dictGetD (d : PyDict) (k : String) (dflt : String) : String :=
  (dictGet d k).getD dflt

/-- `d[k] = v`: replace the first binding of `k`, else append at the end
(Python dicts preserve insertion order). -/
def dictSet (d : PyDict) (k v : String) : PyDict :=
  match d with
  | [] => [(k, v)]
  | (k', v') :: rest => if k' = k then (k, v) :: rest else (k', v') :: dictSet rest k v

/-! ## Substring and whitespace helpers (Python `in`, `str.strip`) -/

/-- `pat` occurs at the head of `s` (character list form). -/
def leadMatch : List Char → List Char → Bool
  | _, [] => true
  | [], _ :: _ => false
  | c :: cs, p :: ps => c = p && leadMatch cs ps

/-- `pat` occurs somewhere in `s` (character list form). -/
def subOccur : List Char → List Char → Bool
  | [], pat => pat.isEmpty
  | s@(_ :: rest), pat => leadMatch s pat || subOccur rest pat

/-- Python `pat in s` on strings. -/
def strContains (s pat : String) : Bool :=
  subOccur s.data pat.data

/-- Python truthiness of a string: non-empty. -/
def pyTruthy (s : String) : Bool := s != ""

/-- Python `str.strip()`: leading and trailing whitespace removed. -/
def pyStrip (s : String) : String :=
  ⟨((s.data.dropWhile Char.isWhitespace).reverse.dropWhile Char.isWhitespace).reverse⟩

/-! ## Domain exception hierarchy (`app/exceptions/secret_manager.py`) -/

/-- The concrete Python exception class constructed by the mapper. -/
inductive SMExcClass
  | SecretManagerException
  | SecretNotFoundException
  | SecretAccessDeniedException
  | SecretVersionNotFoundException
  | SecretConnectionException
  | SecretQuotaExceededException
  | SecretInternalErrorException
  | SecretUnavailableException
  | SecretTimeoutException
  deriving DecidableEq, Repr

/-- A constructed domain exception: its class and its message string. -/
structure SMException where
  cls : SMExcClass
  msg : String
  deriving DecidableEq, Repr

/-! ## Backend (GCP / builtin) exception classes

`_get_mapped_exception` dispatches on `isinstance` against classes from
`google.api_core.exceptions` plus builtin `ConnectionError` / `OSError`.
The runtime class of the raised error is embedded as `PyExcClass`; the
classes named in the `isinstance` checks as `GcpCheckClass`. The subclass
facts that matter for the checked set are:
`ResourceExhausted` subclasses `TooManyRequests` (google.api_core), and
builtin `ConnectionError` subclasses `OSError`. -/

inductive GcpCheckClass
  | NotFound | PermissionDenied | AlreadyExists | FailedPrecondition
  | InvalidArgument | ResourceExhausted | DeadlineExceeded | ServiceUnavailable
  | InternalServerError | RetryError | TooManyRequests
  | ConnectionError | OSError
  deriving DecidableEq, Repr

/-- Runtime class of a raised backend error; `OtherExc name` is any class
outside the recognized set (an unrecognized backend error or a plain
exception), carrying its type name. -/
inductive PyExcClass
  | NotFound | PermissionDenied | AlreadyExists | FailedPrecondition
  | InvalidArgument | ResourceExhausted | DeadlineExceeded | ServiceUnavailable
  | InternalServerError | RetryError | TooManyRequests
  | ConnectionError | OSError
  | OtherExc (name : String)
  deriving DecidableEq, Repr

/-- The checked classes a runtime class is an instance of. -/
def classAncestors : PyExcClass → List GcpCheckClass
  | .NotFound => [.NotFound]
  | .PermissionDenied => [.PermissionDenied]
  | .AlreadyExists => [.AlreadyExists]
  | .FailedPrecondition => [.FailedPrecondition]
  | .InvalidArgument => [.InvalidArgument]
  | .ResourceExhausted => [.ResourceExhausted, .TooManyRequests]
  | .DeadlineExceeded => [.DeadlineExceeded]
  | .ServiceUnavailable => [.ServiceUnavailable]
  | .InternalServerError => [.InternalServerError]
  | .RetryError => [.RetryError]
  | .TooManyRequests => [.TooManyRequests]
  | .ConnectionError => [.ConnectionError, .OSError]
  | .OSError => [.OSError]
  | .OtherExc _ => []

/-- Python `isinstance(e, c)` restricted to the checked classes. -/
def isinstance (e : PyExcClass) (c : GcpCheckClass) : Bool :=
  (classAncestors e).contains c

/-- `type(e).__name__`. -/
def pyTypeName : PyExcClass → String
  | .NotFound => "NotFound"
  | .PermissionDenied => "PermissionDenied"
  | .AlreadyExists => "AlreadyExists"
  | .FailedPrecondition => "FailedPrecondition"
  | .InvalidArgument => "InvalidArgument"
  | .ResourceExhausted => "ResourceExhausted"
  | .DeadlineExceeded => "DeadlineExceeded"
  | .ServiceUnavailable => "ServiceUnavailable"
  | .InternalServerError => "InternalServerError"
  | .RetryError => "RetryError"
  | .TooManyRequests => "TooManyRequests"
  | .ConnectionError => "ConnectionError"
  | .OSError => "OSError"
  | .OtherExc name => name

/-- A raised backend error: runtime class plus `str(e)`. -/
structure PyExc where
  cls : PyExcClass
  msg : String
  deriving DecidableEq, Repr

/-! ## The error mapper (`secret_manager.py` lines 771–942) -/

/-- `_get_safe_context`: drop fields named `secret_value`, `payload`, `data`. -/
def getSafeContext (context : PyDict) : PyDict :=
  context.filter (fun kv => !(["secret_value", "payload", "data"].contains kv.1))

/-- `_handle_not_found`. -/
def handleNotFound (secretName version : String) : SMException :=
  if pyTruthy version then
    ⟨.SecretVersionNotFoundException,
      "Secret '" ++ secretName ++ "' version '" ++ version ++ "' not found"⟩
  else
    ⟨.SecretNotFoundException, "Secret '" ++ secretName ++ "' not found"⟩

/-- `_handle_failed_precondition`. -/
def handleFailedPrecondition (secretName version errorMsg : String) : SMException :=
  if strContains errorMsg.toLower "disabled" || strContains errorMsg.toLower "destroyed" then
    ⟨.SecretVersionNotFoundException,
      "Secret '" ++ secretName ++ "' version '" ++ version
        ++ "' is not accessible (disabled or destroyed)"⟩
  else
    ⟨.SecretManagerException, "Operation failed due to precondition: " ++ errorMsg⟩

/-- `exception_mappings` inside `_get_mapped_exception`: the ordered cascade of
(`isinstance` target classes, constructed exception). A Python tuple of classes
becomes a list. -/
def exceptionMappings (secretName version operation errorMsg : String) :
    List (List GcpCheckClass × SMException) :=
  [ ([.NotFound], handleNotFound secretName version),
    ([.PermissionDenied],
      ⟨.SecretAccessDeniedException,
        "Permission denied for " ++ operation ++ " on secret '" ++ secretName
          ++ "': " ++ errorMsg⟩),
    ([.AlreadyExists],
      ⟨.SecretManagerException, "Secret '" ++ secretName ++ "' already exists"⟩),
    ([.FailedPrecondition], handleFailedPrecondition secretName version errorMsg),
    ([.InvalidArgument],
      ⟨.SecretManagerException, "Invalid argument for " ++ operation ++ ": " ++ errorMsg⟩),
    ([.ResourceExhausted],
      ⟨.SecretQuotaExceededException, "Quota exceeded for " ++ operation ++ ": " ++ errorMsg⟩),
    ([.DeadlineExceeded],
      ⟨.SecretTimeoutException, "Operation timed out during " ++ operation ++ ": " ++ errorMsg⟩),
    ([.ServiceUnavailable],
      ⟨.SecretUnavailableException,
        "Secret Manager service temporarily unavailable during " ++ operation
          ++ ": " ++ errorMsg⟩),
    ([.InternalServerError],
      ⟨.SecretInternalErrorException,
        "Internal server error during " ++ operation ++ ": " ++ errorMsg⟩),
    ([.RetryError, .TooManyRequests],
      ⟨.SecretConnectionException,
        "Network or rate limiting issue during " ++ operation ++ ": " ++ errorMsg⟩),
    ([.ConnectionError, .OSError],
      ⟨.SecretConnectionException,
        "Network connectivity issue during " ++ operation ++ ": " ++ errorMsg⟩) ]

/-- `_get_mapped_exception`: scan the cascade in order with `isinstance`;
fall back to the generic `SecretManagerException`. -/
def getMappedException (e : PyExc) (context : PyDict) : SMException :=
  let secretName := dictGetD context "secret_name" "unknown"
  let version := dictGetD context "version" ""
  let operation := dictGetD context "operation" "operation"
  let errorMsg := e.msg
  match (exceptionMappings secretName version operation errorMsg).find?
      (fun entry => entry.1.any (fun c => isinstance e.cls c)) with
  | some entry => entry.2
  | none =>
      ⟨.SecretManagerException, "Unexpected error during " ++ operation ++ ": " ++ errorMsg⟩

/-- The observable outcome of `_map_gcp_exception`: the structured context
emitted to both the error-level log (`_log_gcp_error`) and the debug-level
mapping log (`_log_mapped_exception`), the original error's type name and
text as logged, and the returned domain exception. -/
structure MapResult where
  gcpErrorType : String
  gcpErrorMessage : String
  loggedContext : PyDict
  mapped : SMException
  deriving DecidableEq, Repr

/-- `_map_gcp_exception`: add the operation to the context, compute the safe
context for logging and the mapped exception. -/
def mapGcpException (e : PyExc) (operation : String) (context : PyDict) : MapResult :=
  let context' := dictSet context "operation" operation
  { gcpErrorType := pyTypeName e.cls
    gcpErrorMessage := e.msg
    loggedContext := getSafeContext context'
    mapped := getMappedException e context' }

/-! ## Association-list lemmas -/

theorem dictGet_dictSet_ne (d : PyDict) (k v j : String) (h : k ≠ j) :
    dictGet (dictSet d k v) j = dictGet d j := by
  induction d with
  | nil => simp [dictSet, dictGet, h]
  | cons a rest ih =>
      obtain ⟨k', v'⟩ := a
      by_cases hk' : k' = k
      · subst hk'
        simp [dictSet, dictGet, h]
      · simp [dictSet, dictGet, hk', ih]

theorem dictGet_dictSet_same (d : PyDict) (k v : String) :
    dictGet (dictSet d k v) k = some v := by
  induction d with
  | nil => simp [dictSet, dictGet]
  | cons a rest ih =>
      obtain ⟨k', v'⟩ := a
      by_cases hk' : k' = k
      · subst hk'
        simp [dictSet, dictGet]
      · simp [dictSet, dictGet, hk', ih]

/-! ## Mapper reduction lemmas (one per backend class used below) -/

theorem getMappedException_NotFound (msg : String) (ctx : PyDict) :
    getMappedException ⟨.NotFound, msg⟩ ctx =
      handleNotFound (dictGetD ctx "secret_name" "unknown") (dictGetD ctx "version" "") := rfl

theorem getMappedException_RetryError (msg : String) (ctx : PyDict) :
    getMappedException ⟨.RetryError, msg⟩ ctx =
      ⟨.SecretConnectionException,
        "Network or rate limiting issue during "
          ++ dictGetD ctx "operation" "operation" ++ ": " ++ msg⟩ := rfl

theorem getMappedException_TooManyRequests (msg : String) (ctx : PyDict) :
    getMappedException ⟨.TooManyRequests, msg⟩ ctx =
      ⟨.SecretConnectionException,
        "Network or rate limiting issue during "
          ++ dictGetD ctx "operation" "operation" ++ ": " ++ msg⟩ := rfl

theorem getMappedException_OtherExc (name msg : String) (ctx : PyDict) :
    getMappedException ⟨.OtherExc name, msg⟩ ctx =
      ⟨.SecretManagerException,
        "Unexpected error during " ++ dictGetD ctx "operation" "operation" ++ ": " ++ msg⟩ := rfl

/-! ## Substring lemmas -/

theorem leadMatch_refl (l : List Char) : leadMatch l l = true := by
  induction l with
  | nil => rfl
  | cons c cs ih => simp [leadMatch, ih]

theorem subOccur_self (l : List Char) : subOccur l l = true := by
  cases l with
  | nil => rfl
  | cons c cs => simp [subOccur, leadMatch_refl]

theorem subOccur_append_left (a b pat : List Char) (h : subOccur b pat = true) :
    subOccur (a ++ b) pat = true := by
  induction a with
  | nil => simpa using h
  | cons c cs ih =>
      cases pat with
      | nil => rfl
      | cons p ps => simp [subOccur]; right; simpa [subOccur] using ih

theorem strContains_append_self (x t : String) : strContains (x ++ t) t = true := by
  unfold strContains
  have h : (x ++ t).data = x.data ++ t.data := by simp [String.data_append]
  rw [h]
  exact subOccur_append_left _ _ _ (subOccur_self _)

/-! ## Filter-vs-update lemmas for the safe logging context -/

theorem filter_dictSet_dropped (P : String × String → Bool) (d : PyDict) (k v : String)
    (hP : ∀ u, P (k, u) = false) :
    List.filter P (dictSet d k v) = List.filter P d := by
  induction d with
  | nil => simp [dictSet, List.filter, hP]
  | cons a rest ih =>
      obtain ⟨k', v'⟩ := a
      by_cases hk' : k' = k
      · simp [dictSet, hk', List.filter_cons, hP]
      · simp only [dictSet, if_neg hk', List.filter_cons, ih]

theorem filter_dictSet_dictSet_dropped (P : String × String → Bool) (d : PyDict)
    (k v j w : String) (hkj : k ≠ j) (hP : ∀ u, P (k, u) = false) :
    List.filter P (dictSet (dictSet d k v) j w) = List.filter P (dictSet d j w) := by
  induction d with
  | nil => simp [dictSet, hkj, List.filter, hP]
  | cons a rest ih =>
      obtain ⟨k', v'⟩ := a
      by_cases hk' : k' = k
      · simp [dictSet, hk', hkj, List.filter_cons, hP]
      · by_cases hj' : k' = j
        · simp [dictSet, hk', hj', Ne.symm hkj, List.filter_cons,
            filter_dictSet_dropped P rest k v hP]
        · simp [dictSet, hk', hj', List.filter_cons, ih]

/-- `_get_mapped_exception` reads the context only at the keys `secret_name`,
`version` and `operation`. -/
theorem getMappedException_congr (e : PyExc) (c1 c2 : PyDict)
    (h1 : dictGet c1 "secret_name" = dictGet c2 "secret_name")
    (h2 : dictGet c1 "version" = dictGet c2 "version")
    (h3 : dictGet c1 "operation" = dictGet c2 "operation") :
    getMappedException e c1 = getMappedException e c2 := by
  unfold getMappedException dictGetD
  rw [h1, h2, h3]

/-! ## Claim theorems about the error mapper -/

/-- Claim C1: for every backend NotFound error, secret name, operation and
context, the mapper returns `SecretVersionNotFoundException` exactly when the
context carries a non-empty `version` entry, and `SecretNotFoundException`
when the context has no `version` entry or an empty one. -/
theorem notFound_mapping_selects_on_version_context (msg op : String) (ctx : PyDict) :
    (mapGcpException ⟨.NotFound, msg⟩ op ctx).mapped.cls =
      if pyTruthy (dictGetD ctx "version" "") then
        SMExcClass.SecretVersionNotFoundException
      else SMExcClass.SecretNotFoundException := by
  show (getMappedException ⟨.NotFound, msg⟩ (dictSet ctx "operation" op)).cls = _
  rw [getMappedException_NotFound]
  have hv : dictGetD (dictSet ctx "operation" op) "version" "" = dictGetD ctx "version" "" := by
    unfold dictGetD
    rw [dictGet_dictSet_ne _ _ _ _ (by decide)]
  rw [hv]
  unfold handleNotFound
  by_cases h : pyTruthy (dictGetD ctx "version" "") <;> simp [h]

/-- Claim C3 (counterexample): a TooManyRequests backend error is mapped to
`SecretConnectionException`, not to the QuotaExceeded domain kind, refuting
the claimed TooManyRequests → QuotaExceeded mapping at a concrete input. -/
theorem tooManyRequests_not_quotaExceeded_cex :
    (mapGcpException ⟨.TooManyRequests, "quota hit"⟩ "secret retrieval" []).mapped.cls =
        SMExcClass.SecretConnectionException ∧
    (mapGcpException ⟨.TooManyRequests, "quota hit"⟩ "secret retrieval" []).mapped.cls ≠
        SMExcClass.SecretQuotaExceededException :=
  ⟨rfl, by decide⟩

/-- Claim C3 (amended): for every operation name, context and error text, the
mapper sends both RetryError and TooManyRequests backend errors to the
Connection domain kind (`SecretConnectionException`). -/
theorem retryError_tooManyRequests_map_to_connection (msg op : String) (ctx : PyDict) :
    (mapGcpException ⟨.RetryError, msg⟩ op ctx).mapped.cls =
        SMExcClass.SecretConnectionException ∧
    (mapGcpException ⟨.TooManyRequests, msg⟩ op ctx).mapped.cls =
        SMExcClass.SecretConnectionException := ⟨rfl, rfl⟩

/-- Claim C4: updating a context field named `secret_value`, `payload` or
`data` to any value leaves the whole observable outcome of the mapper — the
structured logging context and the returned domain exception (hence its
message) — unchanged, and no field with such a name ever appears in the
logged context. -/
theorem mapper_invariant_under_sensitive_fields (e : PyExc) (op : String) (ctx : PyDict)
    (k v : String) (hk : k ∈ (["secret_value", "payload", "data"] : List String)) :
    mapGcpException e op (dictSet ctx k v) = mapGcpException e op ctx ∧
    ∀ p ∈ (mapGcpException e op ctx).loggedContext, p.1 ≠ k := by
  have hcases : k = "secret_value" ∨ k = "payload" ∨ k = "data" := by simpa using hk
  have hkeys : k ≠ "operation" ∧ k ≠ "secret_name" ∧ k ≠ "version" := by
    rcases hcases with h | h | h <;> subst h <;> exact ⟨by decide, by decide, by decide⟩
  have hcont : (["secret_value", "payload", "data"] : List String).contains k = true := by
    rcases hcases with h | h | h <;> subst h <;> decide
  have hP : ∀ u, (fun kv : String × String =>
      !(["secret_value", "payload", "data"].contains kv.1)) (k, u) = false := by
    intro u
    rcases hcases with h | h | h <;> subst h <;> simp
  constructor
  · have h3 : getSafeContext (dictSet (dictSet ctx k v) "operation" op) =
        getSafeContext (dictSet ctx "operation" op) :=
      filter_dictSet_dictSet_dropped _ ctx k v "operation" op hkeys.1 hP
    have h4 : getMappedException e (dictSet (dictSet ctx k v) "operation" op) =
        getMappedException e (dictSet ctx "operation" op) := by
      refine getMappedException_congr e _ _ ?_ ?_ ?_
      · rw [dictGet_dictSet_ne _ _ _ _ (by decide), dictGet_dictSet_ne _ _ _ _ hkeys.2.1,
          dictGet_dictSet_ne _ _ _ _ (by decide)]
      · rw [dictGet_dictSet_ne _ _ _ _ (by decide), dictGet_dictSet_ne _ _ _ _ hkeys.2.2,
          dictGet_dictSet_ne _ _ _ _ (by decide)]
      · rw [dictGet_dictSet_same, dictGet_dictSet_same]
    simp only [mapGcpException]
    rw [h3, h4]
  · intro p hp hpk
    have hmem := (List.mem_filter.mp hp).2
    rw [hpk] at hmem
    rw [hcont] at hmem
    simp at hmem

/-- Claim C4 witness: the invariance theorem instantiated at a concrete
mapper call with a concrete secret value in the context. -/
theorem mapper_invariant_under_sensitive_fields_witness :
    mapGcpException ⟨.NotFound, "404"⟩ "secret retrieval"
        (dictSet [("secret_name", "db-password")] "secret_value" "p@ss1") =
      mapGcpException ⟨.NotFound, "404"⟩ "secret retrieval" [("secret_name", "db-password")] ∧
    ∀ p ∈ (mapGcpException ⟨.NotFound, "404"⟩ "secret retrieval"
        [("secret_name", "db-password")]).loggedContext, p.1 ≠ "secret_value" :=
  mapper_invariant_under_sensitive_fields ⟨.NotFound, "404"⟩ "secret retrieval"
    [("secret_name", "db-password")] "secret_value" "p@ss1" (by decide)

/-- Claim C9 (counterexample): an unrecognized plain exception of type
`ValueError` with text `boom` is mapped to a message that contains the
original text but not the original type name, refuting the claim that the
message includes both. -/
theorem unrecognized_error_message_lacks_type_name_cex :
    strContains (mapGcpException ⟨.OtherExc "ValueError", "boom"⟩ "secret retrieval" []).mapped.msg
        (mapGcpException ⟨.OtherExc "ValueError", "boom"⟩ "secret retrieval" []).gcpErrorType
      = false ∧
    strContains (mapGcpException ⟨.OtherExc "ValueError", "boom"⟩ "secret retrieval" []).mapped.msg
        "boom" = true := by decide

/-- Claim C9 (amended): every unrecognized backend error or plain exception is
mapped to the generic `SecretManagerException`; its message includes the
original exception's text, while the original type name is recorded in the
error log's `gcp_error_type` field rather than in the message. -/
theorem unrecognized_error_maps_to_generic_with_text (name msg op : String) (ctx : PyDict) :
    (mapGcpException ⟨.OtherExc name, msg⟩ op ctx).mapped.cls =
        SMExcClass.SecretManagerException ∧
    strContains (mapGcpException ⟨.OtherExc name, msg⟩ op ctx).mapped.msg msg = true ∧
    (mapGcpException ⟨.OtherExc name, msg⟩ op ctx).gcpErrorType = name := by
  refine ⟨rfl, ?_, rfl⟩
  show strContains
      (getMappedException ⟨.OtherExc name, msg⟩ (dictSet ctx "operation" op)).msg msg = true
  rw [getMappedException_OtherExc]
  exact strContains_append_self _ _

/-! ## TTL cache (`secret_manager.py` lines 944–1066) -/

/-- `self._cache`: key to `(value, expiry_time)`, an insertion-ordered dict
with opaque cached values of type `α` and times as integers. -/
abbrev CacheStore (α : Type) := List (String × α × Int)

/-- `cache_key in self._cache` / `self._cache[cache_key]`. -/
def cacheLookup {α : Type} (store : CacheStore α) (key : String) : Option (α × Int) :=
  match store with
  | [] => none
  | (k, v, t) :: rest => if k = key then some (v, t) else cacheLookup rest key

/-- `del self._cache[cache_key]`. -/
def cacheErase {α : Type} (store : CacheStore α) (key : String) : CacheStore α :=
  store.filter (fun p => !(p.1 == key))

/-- `self._cache[cache_key] = (value, expiry_time)`. -/
def cacheSet {α : Type} (store : CacheStore α) (key : String) (v : α) (t : Int) : CacheStore α :=
  match store with
  | [] => [(key, v, t)]
  | (k', v') :: rest => if k' = key then (key, v, t) :: rest else (k', v') :: cacheSet rest key v t

/-- `_get_cache_key`. -/
def getCacheKey (secretName : String) (version : String) : String :=
  secretName ++ ":" ++ version

/-- Python `s.startswith(pre)`. -/
def strStarts (s pre : String) : Bool := leadMatch s.data pre.data

/-- Python truthiness of `Optional[str]`: `None` and `""` are falsy. -/
def pyTruthyOpt : Option String → Bool
  | none => false
  | some s => s != ""

/-- `_get_from_cache`: the returned value (None on miss/disabled/expired) and
the store after the call (an expired entry found during lookup is removed). -/
def getFromCache {α : Type} (enableCache : Bool) (now : Int) (store : CacheStore α)
    (cacheKey : String) : Option α × CacheStore α :=
  if !enableCache then (none, store)
  else
    match cacheLookup store cacheKey with
    | some (value, expiryTime) =>
        if now < expiryTime then (some value, store)
        else (none, cacheErase store cacheKey)
    | none => (none, store)

/-- `_put_in_cache`: store `(value, now + ttl)`; no-op when caching disabled. -/
def putInCache {α : Type} (enableCache : Bool) (now ttl : Int) (store : CacheStore α)
    (cacheKey : String) (value : α) : CacheStore α :=
  if !enableCache then store
  else cacheSet store cacheKey value (now + ttl)

/-- `_invalidate_cache`: with a truthy version, delete exactly that version's
key; otherwise delete every key starting with `secret_name + ":"`. -/
def invalidateCache {α : Type} (enableCache : Bool) (store : CacheStore α)
    (secretName : String) (version : Option String) : CacheStore α :=
  if !enableCache then store
  else if pyTruthyOpt version then
    cacheErase store (getCacheKey secretName (version.getD ""))
  else
    store.filter (fun p => !(strStarts p.1 (secretName ++ ":")))

/-- The cache-visible slice of `disable_secret_version` (lines 1946–1977): the
backend request path is built from the stripped name, while the cache
invalidation that follows the backend call receives the original
`secret_name` unstripped. -/
def disableSecretVersion {α : Type} (enableCache : Bool) (projectId : String)
    (store : CacheStore α) (secretName version : String) : String × CacheStore α :=
  let normalizedName := pyStrip secretName
  let versionPath :=
    "projects/" ++ projectId ++ "/secrets/" ++ normalizedName ++ "/versions/" ++ version
  (versionPath, invalidateCache enableCache store secretName (some version))

/-- The cache key under which `get_secret(secret_name, version)` both looks up
and stores its response (lines 1326–1328 and 1374): the name exactly as
passed to `get_secret`. -/
def getSecretCacheKey (secretName version : String) : String :=
  getCacheKey secretName version

theorem cacheLookup_cacheErase {α : Type} (store : CacheStore α) (key : String) :
    cacheLookup (cacheErase store key) key = none := by
  unfold cacheErase
  induction store with
  | nil => rfl
  | cons a rest ih =>
      obtain ⟨k, v, t⟩ := a
      by_cases hk : k = key
      · simpa [List.filter_cons, hk] using ih
      · simpa [List.filter_cons, hk, cacheLookup] using ih

theorem cacheLookup_cacheErase_ne {α : Type} (store : CacheStore α) (key key' : String)
    (h : key' ≠ key) :
    cacheLookup (cacheErase store key) key' = cacheLookup store key' := by
  unfold cacheErase
  induction store with
  | nil => rfl
  | cons a rest ih =>
      obtain ⟨k, v, t⟩ := a
      by_cases hk : k = key
      · simpa [List.filter_cons, hk, cacheLookup, Ne.symm h] using ih
      · simp [List.filter_cons, hk, cacheLookup, ih]

theorem string_append_right_cancel (a b t : String) (h : a ++ t = b ++ t) : a = b := by
  have hd : a.data ++ t.data = b.data ++ t.data := by
    have := congrArg String.data h
    simpa [String.data_append] using this
  have hab : a.data = b.data := List.append_cancel_right hd
  cases a; cases b
  exact congrArg String.mk hab

theorem getCacheKey_ne_of_name_ne (a b v : String) (h : a ≠ b) :
    getCacheKey a v ≠ getCacheKey b v := by
  intro he
  apply h
  unfold getCacheKey at he
  have h1 : (a ++ ":") ++ v = (b ++ ":") ++ v := by
    simpa [String.append_assoc] using he
  have h2 : a ++ ":" = b ++ ":" := string_append_right_cancel _ _ _ h1
  exact string_append_right_cancel _ _ _ h2

/-! ## Claim theorems about the cache -/

/-- Claim C7: with caching enabled, a `get` on a key whose stored expiry lies
in the past returns None, and that same call deletes the expired entry from
the underlying store. -/
theorem expired_entry_absent_and_purged {α : Type} (now : Int) (store : CacheStore α)
    (key : String) (v : α) (t : Int)
    (hl : cacheLookup store key = some (v, t)) (ht : t < now) :
    getFromCache true now store key = ((none : Option α), cacheErase store key) ∧
    cacheLookup (getFromCache true now store key).2 key = none := by
  have hnl : ¬(now < t) := not_lt.mpr (le_of_lt ht)
  constructor
  · simp [getFromCache, hl, hnl]
  · simp [getFromCache, hl, hnl, cacheLookup_cacheErase]

/-- Claim C7 witness: a concrete store whose single entry expired at time 5,
looked up at time 10. -/
theorem expired_entry_absent_and_purged_witness :
    getFromCache true 10 [("db-password:latest", ((7 : Nat), (5 : Int)))] "db-password:latest"
        = ((none : Option Nat), cacheErase [("db-password:latest", ((7 : Nat), (5 : Int)))]
            "db-password:latest") ∧
    cacheLookup (getFromCache true 10 [("db-password:latest", ((7 : Nat), (5 : Int)))]
        "db-password:latest").2 "db-password:latest" = none :=
  expired_entry_absent_and_purged 10 [("db-password:latest", ((7 : Nat), (5 : Int)))]
    "db-password:latest" 7 5 (by decide) (by decide)

/-- Claim C10: when `disable_secret_version` receives a secret name carrying
surrounding whitespace, the backend request path is built from the stripped
name while the cache invalidation keys off the original name, so the cache
entry stored under the stripped name's key (the key `get_secret` uses when
called with the stripped name) is left unchanged. -/
theorem disable_strips_path_but_not_cache_key {α : Type} (enableCache : Bool)
    (projectId : String) (store : CacheStore α) (secretName version : String)
    (hws : pyStrip secretName ≠ secretName) (hv : version ≠ "") :
    (disableSecretVersion enableCache projectId store secretName version).1 =
      "projects/" ++ projectId ++ "/secrets/" ++ pyStrip secretName
        ++ "/versions/" ++ version ∧
    cacheLookup (disableSecretVersion enableCache projectId store secretName version).2
        (getSecretCacheKey (pyStrip secretName) version) =
      cacheLookup store (getSecretCacheKey (pyStrip secretName) version) := by
  refine ⟨rfl, ?_⟩
  show cacheLookup (invalidateCache enableCache store secretName (some version)) _ = _
  cases enableCache with
  | false => rfl
  | true =>
      have hver : pyTruthyOpt (some version) = true := by
        simp [pyTruthyOpt, hv]
      simp only [invalidateCache, Bool.not_true, if_neg (by decide : ¬false = true), hver,
        if_pos rfl, Option.getD]
      exact cacheLookup_cacheErase_ne _ _ _ (getCacheKey_ne_of_name_ne _ _ _ hws)

/-- Claim C10 witness: disabling version 1 of `"  db-password  "` leaves the
entry cached under `"db-password:1"` untouched. -/
theorem disable_strips_path_but_not_cache_key_witness :
    (disableSecretVersion true "proj" [("db-password:1", ((7 : Nat), (99 : Int)))]
        "  db-password  " "1").1 =
      "projects/" ++ "proj" ++ "/secrets/" ++ pyStrip "  db-password  "
        ++ "/versions/" ++ "1" ∧
    cacheLookup (disableSecretVersion true "proj" [("db-password:1", ((7 : Nat), (99 : Int)))]
        "  db-password  " "1").2 (getSecretCacheKey (pyStrip "  db-password  ") "1") =
      cacheLookup [("db-password:1", ((7 : Nat), (99 : Int)))]
        (getSecretCacheKey (pyStrip "  db-password  ") "1") :=
  disable_strips_path_but_not_cache_key true "proj"
    [("db-password:1", ((7 : Nat), (99 : Int)))] "  db-password  " "1"
    (by decide) (by decide)

/-! ## Project-ID resolver (`secret_manager.py` lines 155–318) -/

/-- The external inputs of `_determine_project_id`, one per source it can
consult. `none` stands for an exception or absence at that source.
For gcloud, the pair is (returncode, stdout); for the metadata service,
(status_code, body). -/
structure ProjEnv where
  frameworkEnv : Option String
  osEnv : String → Option String
  gcloud : Option (Int × String)
  metadata : Option (Nat × String)

/-- `_try_framework_env_project_id`: `env("GOOGLE_CLOUD_PROJECT")`, returned
only when truthy; any exception yields None. -/
def tryFrameworkEnvProjectId (e : ProjEnv) : Option String :=
  match e.frameworkEnv with
  | some v => if pyTruthy v then some v else none
  | none => none

/-- The fixed priority list `gcp_env_vars` in
`_try_standard_env_vars_project_id`. -/
def gcpEnvVars : List String :=
  ["GOOGLE_CLOUD_PROJECT", "GCP_PROJECT", "GCLOUD_PROJECT", "PROJECT_ID"]

/-- `_try_standard_env_vars_project_id`: first truthy variable wins. -/
def tryStandardEnvVarsProjectId (e : ProjEnv) : Option String :=
  gcpEnvVars.foldr
    (fun envVar acc =>
      match e.osEnv envVar with
      | some v => if pyTruthy v then some v else acc
      | none => acc)
    none

/-- `_try_gcloud_config_project_id`: `gcloud config get-value project`; the
stripped stdout when the exit code is 0 and the stripped stdout is truthy. -/
def tryGcloudConfigProjectId (e : ProjEnv) : Option String :=
  match e.gcloud with
  | some (returncode, stdout) =>
      if returncode = 0 && pyTruthy (pyStrip stdout) then some (pyStrip stdout) else none
  | none => none

/-- `_try_metadata_service_project_id`: the stripped body on HTTP 200
(returned even if empty, as in the source). -/
def tryMetadataServiceProjectId (e : ProjEnv) : Option String :=
  match e.metadata with
  | some (statusCode, text) => if statusCode = 200 then some (pyStrip text) else none
  | none => none

/-- The detection-method loop of `_determine_project_id`, instrumented with
the number of methods consulted: a method's result is returned as soon as it
is truthy; otherwise the loop moves on. -/
def detectionLoop : List (Option String) → Nat → Option String × Nat
  | [], consulted => (none, consulted)
  | m :: rest, consulted =>
      match m with
      | some v => if pyTruthy v then (some v, consulted + 1) else detectionLoop rest (consulted + 1)
      | none => detectionLoop rest (consulted + 1)

/-- `_determine_project_id`, returning the resolved project ID together with
how many of the four detection methods were consulted (0 when the explicit
constructor parameter is truthy). -/
def determineProjectIdTrace (providedProjectId : Option String) (e : ProjEnv) :
    Option String × Nat :=
  match providedProjectId with
  | some p =>
      if pyTruthy p then (some p, 0)
      else detectionLoop [tryFrameworkEnvProjectId e, tryStandardEnvVarsProjectId e,
        tryGcloudConfigProjectId e, tryMetadataServiceProjectId e] 0
  | none =>
      detectionLoop [tryFrameworkEnvProjectId e, tryStandardEnvVarsProjectId e,
        tryGcloudConfigProjectId e, tryMetadataServiceProjectId e] 0

/-- `_determine_project_id` itself. -/
def determineProjectId (providedProjectId : Option String) (e : ProjEnv) : Option String :=
  (determineProjectIdTrace providedProjectId e).1

/-- The five sources in priority order, as the value each would yield:
constructor parameter first, then the four detection methods. -/
def projectIdSources (providedProjectId : Option String) (e : ProjEnv) : List (Option String) :=
  [providedProjectId, tryFrameworkEnvProjectId e, tryStandardEnvVarsProjectId e,
    tryGcloudConfigProjectId e, tryMetadataServiceProjectId e]

/-- Truthiness on an optional source result. -/
def sourceTruthy (o : Option String) : Bool :=
  match o with
  | some v => pyTruthy v
  | none => false

theorem detectionLoop_wins : ∀ (pre : List (Option String)) (v : String)
    (post : List (Option String)) (n : Nat),
    (∀ x ∈ pre, sourceTruthy x = false) → pyTruthy v = true →
    detectionLoop (pre ++ some v :: post) n = (some v, n + pre.length + 1)
  | [], v, post, n, _, hv => by simp [detectionLoop, hv]
  | a :: rest, v, post, n, hpre, hv => by
      have ha : sourceTruthy a = false := hpre a (by simp)
      have hrest : ∀ x ∈ rest, sourceTruthy x = false := fun x hx => hpre x (by simp [hx])
      have ihr := detectionLoop_wins rest v post (n + 1) hrest hv
      cases a with
      | none =>
          simp only [List.cons_append, detectionLoop]
          rw [List.append_eq, ihr]
          simp only [Prod.mk.injEq, List.length_cons, true_and]
          omega
      | some w =>
          have hw : pyTruthy w = false := by simpa [sourceTruthy] using ha
          simp only [List.cons_append, detectionLoop, hw]
          rw [if_neg (by simp [hw])]
          rw [List.append_eq, ihr]
          simp only [Prod.mk.injEq, List.length_cons, true_and]
          omega


/-- Claim C5: over the ordered source list (explicit constructor argument,
framework environment lookup, standard environment variables, gcloud CLI,
metadata service), `_determine_project_id` returns the first source yielding
a non-empty value, and the number of detection methods consulted equals the
number of sources tried before the winner — so no lower-priority source is
consulted once a higher-priority one has succeeded. -/
theorem first_nonempty_source_wins (provided : Option String) (e : ProjEnv)
    (pre : List (Option String)) (v : String) (post : List (Option String))
    (hdecomp : projectIdSources provided e = pre ++ some v :: post)
    (hpre : ∀ x ∈ pre, sourceTruthy x = false) (hv : pyTruthy v = true) :
    determineProjectId provided e = some v ∧
    (determineProjectIdTrace provided e).2 = pre.length := by
  have key : determineProjectIdTrace provided e = (some v, pre.length) := by
    cases provided with
    | none =>
        cases pre with
        | nil =>
            simp only [projectIdSources, List.nil_append] at hdecomp
            exact absurd (List.head_eq_of_cons_eq hdecomp) (by simp)
        | cons a pre' =>
            simp only [projectIdSources, List.cons_append] at hdecomp
            have h1 := List.head_eq_of_cons_eq hdecomp
            have h2 := List.tail_eq_of_cons_eq hdecomp
            have hpre' : ∀ x ∈ pre', sourceTruthy x = false := fun x hx =>
              hpre x (by simp [hx])
            show detectionLoop [tryFrameworkEnvProjectId e, tryStandardEnvVarsProjectId e,
              tryGcloudConfigProjectId e, tryMetadataServiceProjectId e] 0 = _
            rw [h2, detectionLoop_wins pre' v post 0 hpre' hv]
            simp
    | some p =>
        by_cases hp : pyTruthy p = true
        · cases pre with
          | nil =>
              simp only [projectIdSources, List.nil_append] at hdecomp
              have h1 := List.head_eq_of_cons_eq hdecomp
              have hvp : p = v := by simpa using h1
              subst hvp
              simp [determineProjectIdTrace, hp]
          | cons a pre' =>
              simp only [projectIdSources, List.cons_append] at hdecomp
              have h1 := List.head_eq_of_cons_eq hdecomp
              have ha : sourceTruthy a = false := hpre a (by simp)
              rw [← h1] at ha
              simp [sourceTruthy, hp] at ha
        · have hp' : pyTruthy p = false := by simpa using hp
          cases pre with
          | nil =>
              simp only [projectIdSources, List.nil_append] at hdecomp
              have h1 := List.head_eq_of_cons_eq hdecomp
              have hvp : p = v := by simpa using h1
              subst hvp
              rw [hv] at hp'
              exact absurd hp' (by simp)
          | cons a pre' =>
              simp only [projectIdSources, List.cons_append] at hdecomp
              have h2 := List.tail_eq_of_cons_eq hdecomp
              have hpre' : ∀ x ∈ pre', sourceTruthy x = false := fun x hx =>
                hpre x (by simp [hx])
              show (if pyTruthy p then (some p, 0) else detectionLoop _ 0) = _
              rw [hp']
              simp only [if_neg (by simp : ¬(false = true))]
              rw [h2, detectionLoop_wins pre' v post 0 hpre' hv]
              simp
  exact ⟨by simp [determineProjectId, key], by rw [key]⟩


/-- A concrete resolver environment: no explicit parameter, framework lookup
empty, `GCP_PROJECT` set, gcloud absent, metadata reachable. -/
def witnessProjEnv : ProjEnv :=
  { frameworkEnv := none
    osEnv := fun k => if k = "GCP_PROJECT" then some "my-proj" else none
    gcloud := none
    metadata := some (200, "meta-proj") }

/-- Claim C5 witness: with the two sources above `GCP_PROJECT` empty, the
resolver returns `my-proj` after consulting exactly two detection methods,
leaving gcloud and the metadata service unconsulted. -/
theorem first_nonempty_source_wins_witness :
    determineProjectId none witnessProjEnv = some "my-proj" ∧
    (determineProjectIdTrace none witnessProjEnv).2 =
      ([none, none] : List (Option String)).length :=
  first_nonempty_source_wins none witnessProjEnv [none, none] "my-proj"
    [none, some "meta-proj"] (by decide) (by decide) (by decide)

/-! ## Credential resolver (`secret_manager.py` lines 340–550) -/

/-- External inputs of `_setup_credentials`, over an opaque credential-object
type `γ`. `loadServiceAccountFile`/`parseServiceAccountJson` return the error
text of the exception they raise on failure; `frameworkCredsPath` is the
`GOOGLE_APPLICATION_CREDENTIALS` framework lookup (`none` for unset or a
raised exception); `defaultCreds` is ambient ADC discovery (`none` when it
raises). -/
structure CredEnv (γ : Type) where
  pathExists : String → Bool
  loadServiceAccountFile : String → Except String γ
  parseServiceAccountJson : String → Except String γ
  frameworkCredsPath : Option String
  defaultCreds : Option γ

/-- The `credentials` constructor argument: a service-account JSON string or
an already-built credentials object. -/
inductive CredInput (γ : Type)
  | jsonStr (s : String)
  | credsObj (c : γ)

/-- `_try_credentials_file`: absent/falsy path is skipped; a path that does
not exist or whose file fails to load raises `SecretManagerException`. -/
def tryCredentialsFile {γ : Type} (env : CredEnv γ) (credentialsPath : Option String) :
    Except SMException (Option γ) :=
  match credentialsPath with
  | none => .ok none
  | some path =>
      if !(pyTruthy path) then .ok none
      else if !(env.pathExists path) then
        .error ⟨.SecretManagerException, "Service account key file not found: " ++ path⟩
      else
        match env.loadServiceAccountFile path with
        | .ok c => .ok (some c)
        | .error e =>
            .error ⟨.SecretManagerException,
              "Failed to load credentials from file " ++ path ++ ": " ++ e⟩

/-- `_load_credentials_from_json`: a parse failure raises
`SecretManagerException`. -/
def loadCredentialsFromJson {γ : Type} (env : CredEnv γ) (credentialsJson : String) :
    Except SMException γ :=
  match env.parseServiceAccountJson credentialsJson with
  | .ok c => .ok c
  | .error e => .error ⟨.SecretManagerException, "Invalid credentials JSON string: " ++ e⟩

/-- `_try_provided_credentials`: falsy input is skipped; a JSON string is
parsed (raising on failure); a credentials object is used as-is. -/
def tryProvidedCredentials {γ : Type} (env : CredEnv γ)
    (credentials : Option (CredInput γ)) : Except SMException (Option γ) :=
  match credentials with
  | none => .ok none
  | some (.jsonStr s) =>
      if !(pyTruthy s) then .ok none
      else
        match loadCredentialsFromJson env s with
        | .ok c => .ok (some c)
        | .error e => .error e
  | some (.credsObj c) => .ok (some c)

/-- `_try_framework_credentials`: best effort, every exception swallowed. -/
def tryFrameworkCredentials {γ : Type} (env : CredEnv γ) : Except SMException (Option γ) :=
  .ok (match env.frameworkCredsPath with
    | some fp =>
        if pyTruthy fp && env.pathExists fp then
          match env.loadServiceAccountFile fp with
          | .ok c => some c
          | .error _ => none
        else none
    | none => none)

/-- `_try_default_credentials`: best effort, failure yields None. -/
def tryDefaultCredentials {γ : Type} (env : CredEnv γ) : Except SMException (Option γ) :=
  .ok env.defaultCreds

/-- `_setup_credentials`: run the four methods in order; an exception
propagates, a non-None result is returned, a None result moves on. -/
def setupCredentials {γ : Type} (env : CredEnv γ) (credentials : Option (CredInput γ))
    (credentialsPath : Option String) : Except SMException (Option γ) := do
  match ← tryCredentialsFile env credentialsPath with
  | some c => return some c
  | none =>
    match ← tryProvidedCredentials env credentials with
    | some c => return some c
    | none =>
      match ← tryFrameworkCredentials env with
      | some c => return some c
      | none =>
        match ← tryDefaultCredentials env with
        | some c => return some c
        | none => return none

/-- Claim C6: an explicitly supplied malformed credential source — a truthy
credentials_path that does not exist or whose file fails to load, or a truthy
credentials JSON string that fails to parse — makes `_setup_credentials`
raise a `SecretManagerException` immediately, for every state of the
framework-environment and ambient-default sources (no fall-through). -/
theorem malformed_explicit_credentials_fail_fast {γ : Type} (env : CredEnv γ)
    (credentials : Option (CredInput γ)) (p s e : String)
    (hp : pyTruthy p = true) (hs : pyTruthy s = true) :
    (env.pathExists p = false →
      setupCredentials env credentials (some p) =
        .error ⟨.SecretManagerException, "Service account key file not found: " ++ p⟩) ∧
    (env.pathExists p = true → env.loadServiceAccountFile p = .error e →
      setupCredentials env credentials (some p) =
        .error ⟨.SecretManagerException,
          "Failed to load credentials from file " ++ p ++ ": " ++ e⟩) ∧
    (env.parseServiceAccountJson s = .error e →
      setupCredentials env (some (.jsonStr s)) none =
        .error ⟨.SecretManagerException, "Invalid credentials JSON string: " ++ e⟩) := by
  refine ⟨?_, ?_, ?_⟩
  · intro hex
    simp [setupCredentials, tryCredentialsFile, hp, hex, Bind.bind, Except.bind]
  · intro hex hload
    simp [setupCredentials, tryCredentialsFile, hp, hex, hload, Bind.bind, Except.bind]
  · intro hparse
    simp [setupCredentials, tryCredentialsFile, tryProvidedCredentials,
      loadCredentialsFromJson, hs, hparse, Bind.bind, Except.bind]

/-- A concrete credential environment in which every explicit source is
malformed while the framework path and ambient default credentials are both
available (so any fall-through would succeed and be detected). -/
def witnessCredEnv : CredEnv Nat :=
  { pathExists := fun path => path = "/fw/key.json"
    loadServiceAccountFile := fun _ => .error "bad key data"
    parseServiceAccountJson := fun _ => .error "Expecting value"
    frameworkCredsPath := some "/fw/key.json"
    defaultCreds := some 7 }

/-- Claim C6 witness: the fail-fast theorem at a concrete environment,
a nonexistent path `/missing.json` and an unparsable JSON string. -/
theorem malformed_explicit_credentials_fail_fast_witness :
    ((witnessCredEnv.pathExists "/missing.json") = false →
      setupCredentials witnessCredEnv (some (.jsonStr "\x7bnot valid")) (some "/missing.json") =
        .error ⟨.SecretManagerException,
          "Service account key file not found: " ++ "/missing.json"⟩) ∧
    ((witnessCredEnv.pathExists "/missing.json") = true →
      witnessCredEnv.loadServiceAccountFile "/missing.json" = .error "Expecting value" →
      setupCredentials witnessCredEnv (some (.jsonStr "\x7bnot valid")) (some "/missing.json") =
        .error ⟨.SecretManagerException,
          "Failed to load credentials from file " ++ "/missing.json" ++ ": "
            ++ "Expecting value"⟩) ∧
    (witnessCredEnv.parseServiceAccountJson "\x7bnot valid" = .error "Expecting value" →
      setupCredentials witnessCredEnv (some (.jsonStr "\x7bnot valid")) none =
        .error ⟨.SecretManagerException,
          "Invalid credentials JSON string: " ++ "Expecting value"⟩) :=
  malformed_explicit_credentials_fail_fast witnessCredEnv
    (some (.jsonStr "\x7bnot valid")) "/missing.json" "\x7bnot valid" "Expecting value"
    (by decide) (by decide)

/-! ## `ParameterVersionCreateRequest` (`app/requests/parameter_manager.py`)

Pydantic v2 validates fields in declaration order — `parameter_name`,
`version_name`, `data`, `format_type` — and a field validator's `info.data`
holds only the previously validated fields. The construction function below
threads that accumulating dict explicitly. The external JSON/YAML parsers
(`json.loads` / `yaml.safe_load`) are abstract parameters returning the error
text on failure. -/

/-- Python `str.isspace()`: non-empty and all whitespace. -/
def pyIsSpace (s : String) : Bool :=
  !s.data.isEmpty && s.data.all Char.isWhitespace

/-- The validation failure raised during construction (`ValueError` /
pydantic constraint violations), as a structured sum. -/
inductive PMValidationError
  | fieldTooShort (field : String)
  | fieldTooLong (field : String)
  | emptyOrWhitespace (field : String)
  | invalidFormatType
  | sizeExceeded
  | invalidJsonFormat (e : String)
  | invalidYamlFormat (e : String)
  deriving DecidableEq, Repr

/-- `parameter_name`: `Field(min_length=1, max_length=255)` plus
`validate_parameter_name` (reject empty/whitespace, return `v.strip()`). -/
def validateParameterName (v : String) : Except PMValidationError String :=
  if v.length < 1 then .error (.fieldTooShort "parameter_name")
  else if v.length > 255 then .error (.fieldTooLong "parameter_name")
  else if v == "" || pyIsSpace v then .error (.emptyOrWhitespace "parameter_name")
  else .ok (pyStrip v)

/-- `version_name`: same shape as `parameter_name`. -/
def validateVersionName (v : String) : Except PMValidationError String :=
  if v.length < 1 then .error (.fieldTooShort "version_name")
  else if v.length > 255 then .error (.fieldTooLong "version_name")
  else if v == "" || pyIsSpace v then .error (.emptyOrWhitespace "version_name")
  else .ok (pyStrip v)

/-- `validate_format_type`: membership in `["UNFORMATTED", "JSON", "YAML"]`. -/
def validateFormatType (v : String) : Except PMValidationError String :=
  if ["UNFORMATTED", "JSON", "YAML"].contains v then .ok v
  else .error .invalidFormatType

/-- `_validate_size`: reject when the UTF-8 encoding exceeds 1 MiB. -/
def validateSize (dataStr : String) : Except PMValidationError Unit :=
  if dataStr.utf8ByteSize > 1048576 then .error .sizeExceeded else .ok ()

/-- `_validate_json_data` on string data: `json.loads` must succeed. -/
def validateJsonData (jsonParse : String → Except String Unit) (data : String) :
    Except PMValidationError Unit :=
  match jsonParse data with
  | .ok _ => .ok ()
  | .error e => .error (.invalidJsonFormat e)

/-- `_validate_yaml_data` on string data: `yaml.safe_load` must succeed. -/
def validateYamlData (yamlParse : String → Except String Unit) (data : String) :
    Except PMValidationError Unit :=
  match yamlParse data with
  | .ok _ => .ok ()
  | .error e => .error (.invalidYamlFormat e)

/-- `validate_data` on string data: `_convert_to_string` is the identity,
the size check runs first, then the format-specific check selected by
`info.data.get("format_type", "UNFORMATTED")`. -/
def validateData (jsonParse yamlParse : String → Except String Unit)
    (v : String) (info : PyDict) : Except PMValidationError String := do
  let formatType := dictGetD info "format_type" "UNFORMATTED"
  validateSize v
  if formatType == "JSON" then validateJsonData jsonParse v
  else if formatType == "YAML" then validateYamlData yamlParse v
  else pure ()
  return v

/-- The validated request record. -/
structure ParameterVersionCreateRequest where
  parameter_name : String
  version_name : String
  data : String
  format_type : String
  deriving DecidableEq, Repr

/-- `ParameterVersionCreateRequest(...)` construction with string data:
fields validated in declaration order, `info.data` accumulating previously
validated fields — so the `data` validator runs before `format_type` has
been validated. -/
def mkParameterVersionCreateRequest (jsonParse yamlParse : String → Except String Unit)
    (parameterName versionName dataStr formatType : String) :
    Except PMValidationError ParameterVersionCreateRequest := do
  let pn ← validateParameterName parameterName
  let info1 : PyDict := dictSet [] "parameter_name" pn
  let vn ← validateVersionName versionName
  let info2 : PyDict := dictSet info1 "version_name" vn
  let d ← validateData jsonParse yamlParse dataStr info2
  let ft ← validateFormatType formatType
  return ⟨pn, vn, d, ft⟩

/-- Claim C2 (evaluation at the failing input): constructing
`ParameterVersionCreateRequest` with `format_type="JSON"` and the invalid
JSON data string `"\x7bnot valid"` succeeds for EVERY JSON parser — including
one that rejects the string — because the `data` validator runs before
`format_type` is validated and therefore sees the default `UNFORMATTED`,
skipping the JSON check. -/
theorem json_format_not_validated_at_construction
    (jsonParse yamlParse : String → Except String Unit) :
    mkParameterVersionCreateRequest jsonParse yamlParse
        "test-param" "v1" "\x7bnot valid" "JSON" =
      .ok ⟨"test-param", "v1", "\x7bnot valid", "JSON"⟩ := rfl

theorem utf8ByteSizeGo_replicate (n : Nat) (c : Char) :
    String.utf8ByteSize.go (List.replicate n c) = n * c.utf8Size := by
  induction n with
  | zero => simp [List.replicate, String.utf8ByteSize.go]
  | succ m ih =>
      rw [List.replicate_succ]
      show String.utf8ByteSize.go (List.replicate m c) + c.utf8Size = (m + 1) * c.utf8Size
      rw [ih, Nat.succ_mul]

/-- A string whose UTF-8 encoding is exactly 1 MiB. -/
def megaString : String := String.mk (List.replicate 1048576 'a')

/-- A string whose UTF-8 encoding is 1 MiB plus one byte. -/
def megaString1 : String := String.mk (List.replicate 1048577 'a')

theorem megaString_size : megaString.utf8ByteSize = 1048576 := by
  show String.utf8ByteSize.go (List.replicate 1048576 'a') = 1048576
  rw [utf8ByteSizeGo_replicate]
  rfl

theorem megaString1_size : megaString1.utf8ByteSize = 1048577 := by
  show String.utf8ByteSize.go (List.replicate 1048577 'a') = 1048577
  rw [utf8ByteSizeGo_replicate]
  rfl

/-- Claim C8: a string whose UTF-8 encoding is at most 1,048,576 bytes passes
the size check and can never produce the size error from `validate_data`
whatever the format type in `info.data`; a string of 1,048,577 bytes is
rejected by `validate_data` with the size error, again for every format
type. -/
theorem payload_size_boundary (jsonParse yamlParse : String → Except String Unit)
    (s : String) (info : PyDict) :
    (s.utf8ByteSize ≤ 1048576 →
      validateSize s = .ok () ∧
      validateData jsonParse yamlParse s info ≠ .error .sizeExceeded) ∧
    (s.utf8ByteSize = 1048577 →
      validateData jsonParse yamlParse s info = .error .sizeExceeded) := by
  constructor
  · intro hle
    have hno : ¬(s.utf8ByteSize > 1048576) := by omega
    have hok : validateSize s = .ok () := by simp [validateSize, hno]
    refine ⟨hok, ?_⟩
    simp only [validateData, hok, Bind.bind, Except.bind]
    by_cases hj : dictGetD info "format_type" "UNFORMATTED" == "JSON"
    · simp only [hj, if_pos rfl]
      unfold validateJsonData
      cases jsonParse s <;> simp [pure, Except.pure]
    · simp only [hj]
      by_cases hy : dictGetD info "format_type" "UNFORMATTED" == "YAML"
      · simp only [hy]
        unfold validateYamlData
        cases yamlParse s <;> simp [pure, Except.pure]
      · simp only [hy]
        simp [pure, Except.pure]
  · intro heq
    have hgt : s.utf8ByteSize > 1048576 := by omega
    have herr : validateSize s = .error .sizeExceeded := by simp [validateSize, hgt]
    simp [validateData, herr, Bind.bind, Except.bind]


/-- Claim C8 witness: the boundary theorem applied to concrete strings of
exactly 1,048,576 and 1,048,577 UTF-8 bytes, with a parser pair that accepts
everything. -/
theorem payload_size_boundary_witness :
    (validateSize megaString = .ok () ∧
      validateData (fun _ => .ok ()) (fun _ => .ok ()) megaString [] ≠
        .error PMValidationError.sizeExceeded) ∧
    validateData (fun _ => .ok ()) (fun _ => .ok ()) megaString1 [] =
      .error PMValidationError.sizeExceeded :=
  ⟨(payload_size_boundary (fun _ => .ok ()) (fun _ => .ok ()) megaString []).1
      (by rw [megaString_size]),
    (payload_size_boundary (fun _ => .ok ()) (fun _ => .ok ()) megaString1 []).2
      megaString1_size⟩
